import Mathlib

/-
Verification of the worker-orchestration and usage-accounting layer of the
tgbotsaas2 repository.  The Python source (src/database/connection.py,
src/bots/master_bot.py, src/services/user_bot/...) is shallowly embedded:
database rows become Lean structures, SQL statements become pure functions on
an explicit store, async handlers become functions producing event traces, and
caught exceptions become explicit Boolean inputs or Option results.  Python
integers are arbitrary precision, so token counters are Int with no modular
arithmetic.  Only the columns read or written by the functions under study are
modelled.
-/

namespace TgBotSaas

/-- A row of the users table (database.models.User), restricted to the token
accounting columns used by the functions under study.  `none` models SQL NULL. -/
structure UserRec where
  id : Nat
  tokens_used_total : Option Int := none
  tokens_limit_total : Option Int := none
  tokens_admin_chat_id : Option Int := none
  deriving DecidableEq, Repr

/-- A row of the user_bots table (database.models.UserBot), restricted to the
identity, AI-configuration, token and status columns used by the functions
under study. -/
structure UserBotRec where
  bot_id : String
  user_id : Nat
  status : String := "active"
  is_running : Bool := false
  ai_assistant_enabled : Bool := false
  ai_assistant_type : Option String := none
  openai_agent_id : Option String := none
  openai_agent_name : Option String := none
  openai_admin_chat_id : Option Int := none
  external_api_token : Option String := none
  external_bot_id : Option String := none
  external_platform : Option String := none
  tokens_used_input : Option Int := none
  tokens_used_output : Option Int := none
  tokens_used_total : Option Int := none
  subscription_check_enabled : Bool := false
  deriving DecidableEq, Repr

/-- The persistent relational store backing the Configuration Store and the
Usage Ledger: the users and user_bots tables. -/
structure Store where
  users : List UserRec := []
  bots : List UserBotRec := []
  deriving DecidableEq, Repr

/-- Python `x or d` applied to a nullable integer column: NULL and 0 both fall
back to the default (Python truthiness), any other value is kept.  Mirrors
expressions such as `int(data.tokens_limit_total or 500000)`. -/
def pyOrInt (v : Option Int) (d : Int) : Int :=
  match v with
  | none => d
  | some x => if x = 0 then d else x

/-- `select(User).where(User.id == uid)` with `scalar_one_or_none`. -/
def findUser (st : Store) (uid : Nat) : Option UserRec :=
  st.users.find? (fun u => u.id == uid)

/-- `select(UserBot).where(UserBot.bot_id == bid)` with `scalar_one_or_none`. -/
def findBot (st : Store) (bid : String) : Option UserBotRec :=
  st.bots.find? (fun b => b.bot_id == bid)

/-- The WHERE clause of the owner-aggregate query inside
`DatabaseManager.save_token_usage`: the bot is metered when its agent type is
openai and an OpenAI agent id is configured
(`ai_assistant_type == 'openai'` and `openai_agent_id.isnot(None)`). -/
def metered (b : UserBotRec) : Prop :=
  b.ai_assistant_type = some "openai" ∧ b.openai_agent_id ≠ none

instance (b : UserBotRec) : Decidable (metered b) := by
  unfold metered; infer_instance

/-- `select(func.sum(UserBot.tokens_used_total)).where(...)` over an owner's
metered bots, with `int(result.scalar() or 0)`: NULL totals contribute 0. -/
def meteredSum (bots : List UserBotRec) (uid : Nat) : Int :=
  (bots.map (fun b =>
    if b.user_id = uid ∧ metered b then b.tokens_used_total.getD 0 else 0)).sum

/-- `DatabaseManager.save_token_usage` (src/database/connection.py 652-741):
inside one session and one commit it (1) reads the bot row, (2) adds the
reported input/output counts to the bot's token counters, (3) recomputes the
owner's total as the sum of `tokens_used_total` over the owner's metered bots
(the sum sees the update from step 2, which was already executed on the same
transaction), and (4) stores that sum in the owner's `tokens_used_total`.
Returns `false` without mutating when the bot is missing (or, in the source,
on a database error that rolls the transaction back). -/
def save_token_usage (st : Store) (bid : String) (input_tokens output_tokens : Int)
    (admin_chat_id : Option Int) : Store × Bool :=
  match findBot st bid with
  | none => (st, false)
  | some bot =>
    let new_input := bot.tokens_used_input.getD 0 + input_tokens
    let new_output := bot.tokens_used_output.getD 0 + output_tokens
    let new_total := bot.tokens_used_total.getD 0 + input_tokens + output_tokens
    let setAdmin := admin_chat_id.isSome ∧ bot.openai_admin_chat_id = none
    let bots1 := st.bots.map (fun b =>
      if b.bot_id = bid then
        { b with
          tokens_used_input := some new_input,
          tokens_used_output := some new_output,
          tokens_used_total := some new_total,
          openai_admin_chat_id :=
            if setAdmin then admin_chat_id else b.openai_admin_chat_id }
      else b)
    let user_total := meteredSum bots1 bot.user_id
    let users1 := st.users.map (fun u =>
      if u.id = bot.user_id then { u with tokens_used_total := some user_total }
      else u)
    ({ st with bots := bots1, users := users1 }, true)

/-- `DatabaseManager.check_token_limit` (src/database/connection.py 743-784):
reads the owner's used/limit columns and allows exactly when used < limit
(strict).  A missing owner row returns `(False, 0, 500000)`; the enclosing
try/except turns any database error into the same `(False, 0, 500000)`,
modelled by the `dbError` input.  A stored limit of 0 falls back to 500000
through Python `or`. -/
def check_token_limit (st : Store) (uid : Nat) (dbError : Bool) : Bool × Int × Int :=
  if dbError then (false, 0, 500000)
  else
    match findUser st uid with
    | none => (false, 0, 500000)
    | some u =>
      let total_used := pyOrInt u.tokens_used_total 0
      let tokens_limit := pyOrInt u.tokens_limit_total 500000
      (decide (total_used < tokens_limit), total_used, tokens_limit)

/-- The dictionary returned by `DatabaseManager.get_user_token_balance`
(src/database/connection.py 825-852).  The source builds it with exactly the
keys `limit`, `total_used`, `remaining`; the optional fields model dictionary
keys that other code looks up with `.get` but that this constructor never
produces, so they default to `none` (absent). -/
structure TokenBalanceInfo where
  limit : Int
  total_used : Int
  remaining : Int
  admin_chat_id : Option Int := none
  notification_sent : Option Bool := none
  warning_sent : Option Bool := none
  deriving DecidableEq, Repr

/-- `DatabaseManager.get_user_token_balance`: reads the owner row and returns
limit / total_used / remaining (with Python `or` defaults); `None` when the
owner is missing or on a database error (`dbError`). -/
def get_user_token_balance (st : Store) (uid : Nat) (dbError : Bool) :
    Option TokenBalanceInfo :=
  if dbError then none
  else
    match findUser st uid with
    | none => none
    | some u =>
      some { limit := pyOrInt u.tokens_limit_total 500000,
             total_used := pyOrInt u.tokens_used_total 0,
             remaining := pyOrInt u.tokens_limit_total 500000 -
                          pyOrInt u.tokens_used_total 0 }

/-- The configuration dictionary produced by `DatabaseManager.get_ai_config`
(src/database/connection.py 856-953), restricted to the fields consumed by the
dispatch paths: the resolved agent type and the assistant id (the OpenAI agent
id, or the external API token for chatforyou/protalk). -/
structure AIConfig where
  type : String
  agent_id : Option String := none
  deriving DecidableEq, Repr

/-- `DatabaseManager.get_ai_config`: returns `none` when the bot is missing,
when the AI capability is disabled, when the openai type has no agent id, when
an external type has no API token, or when the type is unknown or unset. -/
def get_ai_config (st : Store) (bid : String) : Option AIConfig :=
  match findBot st bid with
  | none => none
  | some b =>
    if b.ai_assistant_enabled = false then none
    else
      match b.ai_assistant_type with
      | none => none
      | some t =>
        if t = "openai" then
          match b.openai_agent_id with
          | none => none
          | some aid => some { type := "openai", agent_id := some aid }
        else if t = "chatforyou" ∨ t = "protalk" then
          match b.external_api_token with
          | none => none
          | some tok => some { type := t, agent_id := some tok }
        else none

/-- A notification delivered to the owner's admin chat. -/
inductive NotifyEvent
  | exhaustedSent (chat : Int)
  | warningSent (chat : Int)
  deriving DecidableEq, Repr

/-- `ChannelHandler._send_token_exhausted_notification`
(src/services/user_bot/handlers/channel_handlers.py 270-324): skips when the
`notification_sent` key of the balance dictionary is truthy (the key is never
present, so the default `false` is read), then requires `admin_chat_id` from
the same dictionary and an open bot instance before sending.  The second
component records whether marking the flag in the database succeeded:
`DatabaseManager` defines no `set_token_notification_sent`, so the call raises
AttributeError which the surrounding try/except swallows — the flag write
never succeeds. -/
def send_token_exhausted_notification (info : TokenBalanceInfo)
    (botPresent : Bool) : List NotifyEvent × Bool :=
  if info.notification_sent.getD false then ([], false)
  else
    match info.admin_chat_id with
    | none => ([], false)
    | some chat => if botPresent then ([.exhaustedSent chat], false) else ([], false)

/-- `ChannelHandler._send_token_warning_notification`
(src/services/user_bot/handlers/channel_handlers.py 326-375): requires
`admin_chat_id` from the balance dictionary and an open bot instance; the
`set_token_warning_sent` database method likewise does not exist, so the flag
write never succeeds. -/
def send_token_warning_notification (info : TokenBalanceInfo)
    (botPresent : Bool) : List NotifyEvent × Bool :=
  match info.admin_chat_id with
  | none => ([], false)
  | some chat => if botPresent then ([.warningSent chat], false) else ([], false)

/-- `ChannelHandler._check_openai_token_limit`
(src/services/user_bot/handlers/channel_handlers.py 197-268): returns the
`can_use` verdict together with the notification events emitted on the way.
A missing AI config or a non-openai agent allows use without any token check;
a missing balance denies; remaining ≤ 0 denies and attempts the exhausted
notice; use at or above 90 percent of the limit (the float comparison
`tokens_used >= tokens_limit * 0.9` is modelled exactly on integers as
`10 * used ≥ 9 * limit`) attempts the warning when the (never present)
`warning_sent` key is not truthy. -/
def check_openai_token_limit (st : Store) (bid : String) (ownerId : Nat)
    (botPresent : Bool) : Bool × List NotifyEvent :=
  match get_ai_config st bid with
  | none => (true, [])
  | some cfg =>
    if cfg.type ≠ "openai" then (true, [])
    else
      match get_user_token_balance st ownerId false with
      | none => (false, [])
      | some info =>
        let tokens_used := info.total_used
        let tokens_limit := info.limit
        let remaining := tokens_limit - tokens_used
        if remaining ≤ 0 then
          (false, (send_token_exhausted_notification info botPresent).1)
        else if 10 * tokens_used ≥ 9 * tokens_limit ∧
                info.warning_sent.getD false = false then
          (true, (send_token_warning_notification info botPresent).1)
        else (true, [])

/-- The settings dictionary accepted by `DatabaseManager.update_ai_assistant`,
restricted to the keys its control flow inspects.  `none` fields model absent
keys; a value of `none` passed for the whole dictionary models Python `None`
(distinct from an empty dictionary). -/
structure AISettingsPatch where
  agent_type : Option String := none
  agent_name : Option String := none
  platform : Option String := none
  bot_id_value : Option String := none
  deriving DecidableEq, Repr

/-- `DatabaseManager.update_ai_assistant` (src/database/connection.py
1097-1180): builds an update dictionary that always contains
`ai_assistant_enabled := enabled`, adds agent fields depending on which of
`assistant_id` / `settings` are given, and commits it unconditionally — there
is no invariant validation anywhere on this path.  The only failing case is
`assistant_id` given with `settings = None`, where `settings.get` raises
AttributeError (caught, no commit, returns False). -/
def update_ai_assistant (st : Store) (bid : String) (enabled : Bool)
    (assistant_id : Option String) (settings : Option AISettingsPatch) :
    Store × Bool :=
  match assistant_id with
  | some aid =>
    match settings with
    | none => (st, false)
    | some s =>
      if s.agent_type = some "openai" then
        (⟨st.users, st.bots.map (fun b =>
          if b.bot_id = bid then
            { b with
              ai_assistant_enabled := enabled,
              ai_assistant_type := some "openai",
              openai_agent_id := some aid,
              openai_agent_name := s.agent_name }
          else b)⟩, true)
      else
        let platform := s.platform.getD "chatforyou"
        (⟨st.users, st.bots.map (fun b =>
          if b.bot_id = bid then
            { b with
              ai_assistant_enabled := enabled,
              ai_assistant_type := some platform,
              external_api_token := some aid,
              external_bot_id := s.bot_id_value,
              external_platform := some platform }
          else b)⟩, true)
  | none =>
    match settings with
    | some s =>
      (⟨st.users, st.bots.map (fun b =>
        if b.bot_id = bid then
          { b with
            ai_assistant_enabled := enabled,
            ai_assistant_type :=
              if s.agent_type.isSome then s.agent_type else b.ai_assistant_type,
            openai_agent_name :=
              if s.agent_type = some "openai" ∧ s.agent_name.isSome then
                s.agent_name
              else b.openai_agent_name }
        else b)⟩, true)
    | none =>
      (⟨st.users, st.bots.map (fun b =>
        if b.bot_id = bid then { b with ai_assistant_enabled := enabled }
        else b)⟩, true)

/-- `DatabaseManager.validate_agent_data_consistency` (src/database/connection.py
1214-1255): a read-only diagnostic returning an overall status and the list of
detected issues.  It only inspects openai-typed and external-typed records; a
record with the AI capability enabled but no agent type at all is reported
consistent. -/
def validate_agent_data_consistency (st : Store) (bid : String) :
    String × List String :=
  match findBot st bid with
  | none => ("bot_not_found", [])
  | some b =>
    let issues :=
      (if b.ai_assistant_type = some "openai" ∧ b.ai_assistant_enabled ∧
          b.openai_agent_id = none
       then ["openai_enabled_but_no_agent_id"] else [])
      ++ (if b.ai_assistant_type = some "openai" ∧ b.openai_agent_id ≠ none ∧
             b.ai_assistant_enabled = false
          then ["openai_agent_exists_but_disabled"] else [])
      ++ (if (b.ai_assistant_type = some "chatforyou" ∨
              b.ai_assistant_type = some "protalk") ∧
             b.ai_assistant_enabled ∧ b.external_api_token = none
          then ["external_enabled_but_no_token"] else [])
    (if issues = [] then "consistent" else "inconsistent", issues)

/-- Observable steps of a Control Plane command handler in the master bot. -/
inductive CPEvent
  | storeWrite
  | verifyCall (ok : Bool)
  | orchSignal
  | reportSuccess
  | reportNotConfirmed
  | reportError
  deriving DecidableEq, Repr

/-- `DatabaseManager.verify_update_success` (src/database/connection.py
624-648): after a fixed 0.1 s sleep it performs a single no-cache read of the
subscription flag and compares it with the expected value; any exception
yields `false`.  There is no polling loop and no retry. -/
def verify_update_success (freshEnabled expected : Bool) (exc : Bool) : Bool :=
  if exc then false else freshEnabled == expected

/-- `MasterBot.handle_token_input` (src/bots/master_bot.py 1141-1255), the
createWorker command, as the trace of its store/orchestrator/report steps.
After format and gateway validation it persists the bot row
(`create_user_bot`), immediately signals the Orchestrator (`add_bot`, whose
failure is caught and ignored), and reports success — no verification step of
any kind occurs between the write and the orchestrator signal. -/
def handle_token_input (formatOk tgVerifyOk managerPresent : Bool) :
    List CPEvent :=
  if formatOk = false then [.reportError]
  else if tgVerifyOk = false then [.reportError]
  else
    CPEvent.storeWrite ::
      ((if managerPresent then [CPEvent.orchSignal] else []) ++
        [CPEvent.reportSuccess])

/-- `AdminHandler.cb_toggle_subscription`
(src/services/user_bot/handlers/admin_handlers.py 587-678): rejects
non-owners, writes the toggled flag, aborts with an error report when the
write helper signals failure, then runs `verify_update_success` expecting the
new value (`verifyRead` is the value the single fresh verification read
observes and `verifyExc` models an exception inside verify); a failed
verification reports not-confirmed and stops before any success report.  The
handler never signals the Orchestrator. -/
def cb_toggle_subscription (isOwner current updOk verifyRead verifyExc : Bool) :
    List CPEvent :=
  if isOwner = false then []
  else
    let newEnabled := !current
    if updOk = false then [.reportError]
    else
      let vOk := verify_update_success verifyRead newEnabled verifyExc
      CPEvent.storeWrite :: CPEvent.verifyCall vOk ::
        (if vOk then [CPEvent.reportSuccess] else [CPEvent.reportNotConfirmed])

/-- Observable steps of the worker-deletion command. -/
inductive DelEvent
  | notFound
  | notOwner
  | removeBot (ok : Bool)
  | deleteRow
  deriving DecidableEq, Repr

/-- `MasterBot._confirm_delete_bot` (src/bots/master_bot.py 1465-1526): after
the existence and ownership checks it instructs the Orchestrator to remove the
running instance (`remove_bot`; a failure is caught — `ok` records it) and
only then deletes the persisted row (`delete_user_bot`).  When no bot manager
is attached the removal instruction is skipped. -/
def confirm_delete_bot (found isOwner managerPresent removeOk : Bool) :
    List DelEvent :=
  if found = false then [.notFound]
  else if isOwner = false then [.notOwner]
  else
    (if managerPresent then [DelEvent.removeBot removeOk] else []) ++
      [DelEvent.deleteRow]

/-- The in-memory lifecycle fields of `UserBot`
(src/services/user_bot/core.py): the running flag and the presence of the
polling task, the aiogram Bot (network session) and the dispatcher. -/
structure RuntimeState where
  is_running : Bool
  polling_task : Bool
  bot : Bool
  dp : Bool
  deriving DecidableEq, Repr

/-- Resource actions performed while stopping. -/
inductive StopEvent
  | cancelPolling
  | closeSession
  deriving DecidableEq, Repr

/-- `UserBot._cleanup` (src/services/user_bot/core.py 184-194): closes the
network session when a bot instance exists (errors during close are caught),
then clears bot, dispatcher and polling task. -/
def cleanupBot (s : RuntimeState) : RuntimeState × List StopEvent :=
  ({ s with bot := false, dp := false, polling_task := false },
   if s.bot then [StopEvent.closeSession] else [])

/-- `UserBot.stop` (src/services/user_bot/core.py 165-182): clears the running
flag, cancels and awaits the polling task when one exists, then runs
`_cleanup`.  Every failure mode on this path is caught, so the function is
total. -/
def stopBot (s : RuntimeState) : RuntimeState × List StopEvent :=
  let cancelEvs := if s.polling_task then [StopEvent.cancelPolling] else []
  let r := cleanupBot { s with is_running := false }
  (r.1, cancelEvs ++ r.2)

/-- One iteration outcome of `dp.start_polling` inside the retry loop: a
normal return, a cancellation, or a raised transient error. -/
inductive PollStep
  | success
  | cancelled
  | failure
  deriving DecidableEq, Repr

/-- The worker state observed by `UserBot._start_polling`: the in-memory
running flag and consecutive-error counter, plus the status row persisted via
`update_bot_status` when the ceiling is exceeded. -/
structure PollState where
  is_running : Bool
  error_count : Nat
  status_persisted : Option (String × Bool)
  deriving DecidableEq, Repr

/-- `UserBot._start_polling` (src/services/user_bot/core.py 271-305): while
the bot is running and fewer than `max_retries = 5` retries have happened, run
one poll; success or cancellation breaks out; a failure increments the local
retry counter and the instance error counter, then either sleeps
`min(retry_count * 5, 30)` seconds and retries, or — on the fifth consecutive
failure — clears the running flag and persists status "error" with
`is_running = False`, after which the loop exits without further retries.
The list of outcomes is the schedule of poll results; the returned list
records the sleep durations. -/
def startPollingLoop (steps : List PollStep) (retry : Nat) (s : PollState)
    (sleeps : List Nat) : PollState × List Nat :=
  match steps with
  | [] => (s, sleeps)
  | step :: rest =>
    if s.is_running = true ∧ retry < 5 then
      match step with
      | .success => (s, sleeps)
      | .cancelled => (s, sleeps)
      | .failure =>
        let retry1 := retry + 1
        let s1 := { s with error_count := s.error_count + 1 }
        if retry1 < 5 then
          startPollingLoop rest retry1 s1 (sleeps ++ [min (retry1 * 5) 30])
        else
          ({ s1 with is_running := false,
                     status_persisted := some ("error", false) }, sleeps)
    else (s, sleeps)

/-- Modelled from the spec: the Orchestrator
(`services.bot_manager.BotManager.restart_bot`) is not under src — only its
call sites are.  Per spec §4.3 a restart stops the current loop, re-reads the
configuration in Fresh mode (never reusing a stale snapshot) and re-enters
Starting; the runtime is constructed anew, and `UserBot.__init__`
(src/services/user_bot/core.py 64-68) initialises `error_count = 0` and
`is_running = False`, after which a successful `start` sets
`is_running = True`.  A failed start leaves the worker stopped. -/
def restartWorker (old : PollState) (startOk : Bool) : PollState :=
  if startOk then { is_running := true, error_count := 0, status_persisted := none }
  else { old with is_running := false }

/-- Observable steps of a message dispatched to the AI capability. -/
inductive AIEvent
  | quotaCheck (allowed : Bool)
  | llmCall
  | usageIncrement
  | replyText
  deriving DecidableEq, Repr

/-- `ChannelHandler._get_openai_response_for_user`
(src/services/user_bot/handlers/channel_handlers.py 699-785), the user-facing
dispatch path, as an event trace: it requires a fresh openai configuration
with an agent id, evaluates `_check_openai_token_limit` and returns the denial
message without any LLM call when the check fails, checks the per-user daily
message limit, then imports the OpenAI client (`importOk` models the
except-ImportError fallback at lines 769-773, which returns the
service-unavailable reply with no LLM call and no usage increment) and calls
`openai_client.send_message`; on a successful response it attempts the usage
increment before replying. -/
def get_openai_response_for_user (st : Store) (bid : String) (ownerId : Nat)
    (botPresent dailyLimitHit importOk llmOk : Bool) : List AIEvent :=
  match get_ai_config st bid with
  | none => []
  | some cfg =>
    if cfg.type ≠ "openai" then []
    else
      match cfg.agent_id with
      | none => []
      | some _ =>
        AIEvent.quotaCheck (check_openai_token_limit st bid ownerId botPresent).1 ::
          (if (check_openai_token_limit st bid ownerId botPresent).1 then
            (if dailyLimitHit then []
             else if importOk then
               AIEvent.llmCall ::
                 (if llmOk then [AIEvent.usageIncrement, AIEvent.replyText]
                  else [])
             else [AIEvent.replyText])
           else [])

/-- `OpenAIHandler._sync_with_db_state` followed by the agent checks at the
top of `handle_openai_conversation`
(src/services/user_bot/handlers/ai_openai_handler.py 69-122, 1571-1582): after
syncing, the assistant id is the bot row's `openai_agent_id` and it is used
when the synced agent type is openai; the `ai_assistant_enabled` flag is not
consulted on this path. -/
def syncedAssistantId (st : Store) (bid : String) : Option String :=
  match findBot st bid with
  | none => none
  | some b =>
    if b.ai_assistant_type = some "openai" then b.openai_agent_id else none

/-- `OpenAIHandler.handle_openai_conversation`
(src/services/user_bot/handlers/ai_openai_handler.py 1565-1657), the owner
conversation path, as an event trace: it syncs state, requires an openai
assistant id, and calls `openai_client.send_message` directly — no token-quota
check of any kind happens on this path; on a successful response it attempts
the usage increment before returning the reply.  `importOk` models the
except-ImportError fallback at lines 1637-1651: when the OpenAI client module
is unavailable, the handler attempts the usage increment anyway — with no LLM
call at all — and returns the fallback reply. -/
def handle_openai_conversation (st : Store) (bid : String)
    (importOk llmOk : Bool) : List AIEvent :=
  match syncedAssistantId st bid with
  | none => []
  | some _ =>
    if importOk then
      AIEvent.llmCall ::
        (if llmOk then [AIEvent.usageIncrement, AIEvent.replyText] else [])
    else [AIEvent.usageIncrement, AIEvent.replyText]

/-
Concrete stores used by the witnesses, counterexamples and scenario parts of
the theorems below.
-/

/-- An owner (id 7) with two bots, one metered and one openai-typed but with
no agent id, plus a second owner's metered bot. -/
def stC1 : Store :=
  { users := [{ id := 7, tokens_used_total := some 5,
                tokens_limit_total := some 1000 }],
    bots := [{ bot_id := "w1", user_id := 7,
               ai_assistant_type := some "openai",
               openai_agent_id := some "a1",
               tokens_used_total := some 100 },
             { bot_id := "w2", user_id := 7,
               ai_assistant_type := some "openai",
               tokens_used_total := some 50 },
             { bot_id := "w3", user_id := 8,
               ai_assistant_type := some "openai",
               openai_agent_id := some "a3",
               tokens_used_total := some 7 }] }

/-- The spec scenario owner: limit 1000, used 950, one metered bot. -/
def stC3 : Store :=
  { users := [{ id := 7, tokens_used_total := some 950,
                tokens_limit_total := some 1000 }],
    bots := [{ bot_id := "w", user_id := 7,
               ai_assistant_enabled := true,
               ai_assistant_type := some "openai",
               openai_agent_id := some "a",
               tokens_used_total := some 950 }] }

/-- An exhausted owner (used = limit = 1000) whose admin chat id is stored on
both the user row and the bot row, with an enabled openai agent. -/
def stC4 : Store :=
  { users := [{ id := 9, tokens_used_total := some 1000,
                tokens_limit_total := some 1000,
                tokens_admin_chat_id := some 42 }],
    bots := [{ bot_id := "b4", user_id := 9,
               ai_assistant_enabled := true,
               ai_assistant_type := some "openai",
               openai_agent_id := some "agent",
               openai_admin_chat_id := some 42,
               tokens_used_total := some 1000 }] }

/-- The same owner at 95 percent usage (past the 90 percent warning
threshold, not exhausted). -/
def stC4warn : Store :=
  { users := [{ id := 9, tokens_used_total := some 950,
                tokens_limit_total := some 1000,
                tokens_admin_chat_id := some 42 }],
    bots := [{ bot_id := "b4", user_id := 9,
               ai_assistant_enabled := true,
               ai_assistant_type := some "openai",
               openai_agent_id := some "agent",
               openai_admin_chat_id := some 42,
               tokens_used_total := some 950 }] }

/-- A bot with the AI capability off and no agent configured. -/
def stC6 : Store :=
  { users := [], bots := [{ bot_id := "b6", user_id := 1 }] }

/-
Theorems settling the claims.
-/

/-- Claim C1: `save_token_usage` is a single transaction that first adds the
reported token counts to the worker's counters and then sets the owner's
aggregate to the authoritative sum, so that immediately after any successful
charge the owner's `tokens_used_total` equals the sum of `tokens_used_total`
over all of that owner's metered (openai-typed, agent-configured) bots. -/
theorem C1_charge_syncs_owner_aggregate (st st' : Store) (bid : String)
    (i o : Int) (ac : Option Int) (uid : Nat)
    (h : save_token_usage st bid i o ac = (st', true))
    (hown : (findBot st bid).map UserBotRec.user_id = some uid) :
    ∀ u ∈ st'.users, u.id = uid →
      u.tokens_used_total = some (meteredSum st'.bots uid) := by
  cases hb : findBot st bid with
  | none =>
    rw [hb] at hown; exact absurd hown (by simp)
  | some bot =>
    rw [hb] at hown
    simp only [Option.map_some', Option.some.injEq] at hown
    simp only [save_token_usage, hb] at h
    obtain ⟨h1, -⟩ := Prod.mk.injEq .. ▸ h
    subst h1
    intro u hu hid
    simp only [List.mem_map] at hu
    obtain ⟨v, hv, rfl⟩ := hu
    by_cases hc : v.id = bot.user_id
    · rw [if_pos hc, hown]
    · rw [if_neg hc] at hid ⊢
      exact absurd (hid.trans hown.symm) hc

/-- Claim C1 witness: after a concrete successful charge of 10 + 20 tokens to
bot w1, owner 7's stored aggregate (130) equals the metered sum over the
updated bots. -/
theorem C1_charge_syncs_owner_aggregate_witness :
    ({ id := 7, tokens_used_total := some 130,
       tokens_limit_total := some 1000 } : UserRec).tokens_used_total =
      some (meteredSum (save_token_usage stC1 "w1" 10 20 none).1.bots 7) :=
  C1_charge_syncs_owner_aggregate stC1 (save_token_usage stC1 "w1" 10 20 none).1
    "w1" 10 20 none 7 (by decide) (by decide)
    { id := 7, tokens_used_total := some 130, tokens_limit_total := some 1000 }
    (by decide) (by decide)

/-- Claim C3: `check_token_limit` allows exactly when the owner's used total
is strictly below the owner's limit, and a successful charge is not capped at
the limit: in the spec scenario (limit 1000, used 950) the check passes, a
charge of 60 units (25 input + 35 output) succeeds leaving the aggregate at
1010, and the subsequent check at 1010 is denied. -/
theorem C3_quota_strict_and_charge_uncapped (st : Store) (uid : Nat)
    (u : UserRec) (hu : findUser st uid = some u) :
    ((check_token_limit st uid false).1 = true ↔
      pyOrInt u.tokens_used_total 0 < pyOrInt u.tokens_limit_total 500000)
    ∧ ((check_token_limit stC3 7 false).1 = true
       ∧ (save_token_usage stC3 "w" 25 35 none).2 = true
       ∧ (findUser (save_token_usage stC3 "w" 25 35 none).1 7).map
           UserRec.tokens_used_total = some (some 1010)
       ∧ (check_token_limit (save_token_usage stC3 "w" 25 35 none).1 7 false).1
           = false) := by
  constructor
  · simp [check_token_limit, hu]
  · exact ⟨by decide, by decide, by decide, by decide⟩

/-- Claim C3 witness: the theorem applied to the scenario owner. -/
theorem C3_quota_strict_and_charge_uncapped_witness :
    ((check_token_limit stC3 7 false).1 = true ↔
      pyOrInt (some 950) 0 < pyOrInt (some 1000) 500000)
    ∧ ((check_token_limit stC3 7 false).1 = true
       ∧ (save_token_usage stC3 "w" 25 35 none).2 = true
       ∧ (findUser (save_token_usage stC3 "w" 25 35 none).1 7).map
           UserRec.tokens_used_total = some (some 1010)
       ∧ (check_token_limit (save_token_usage stC3 "w" 25 35 none).1 7 false).1
           = false) :=
  C3_quota_strict_and_charge_uncapped stC3 7
    { id := 7, tokens_used_total := some 950, tokens_limit_total := some 1000 }
    (by decide)

/-- Claim C10: the quota check fails closed and is total: a missing owner row
yields not-allowed with used 0 and the default limit 500000, and any internal
database error yields the same — never an exception and never a default
allow. -/
theorem C10_quota_check_fails_closed (st : Store) (uid : Nat) (e : Bool) :
    (findUser st uid = none → check_token_limit st uid e = (false, 0, 500000))
    ∧ check_token_limit st uid true = (false, 0, 500000) := by
  refine ⟨fun h => ?_, rfl⟩
  cases e
  · simp [check_token_limit, h]
  · rfl

/-- Claim C10 witness: the unknown owner 3 on an empty store is denied with
the default limit. -/
theorem C10_quota_check_fails_closed_witness :
    check_token_limit { users := [], bots := [] } 3 false = (false, 0, 500000) :=
  (C10_quota_check_fails_closed { users := [], bots := [] } 3 false).1 (by decide)

/-- Claim C4 (code bug, evaluated at the failing input): with the hard-stop
threshold crossed (used = limit = 1000) and an admin chat id stored on the
owner row, the quota check denies but emits no notification at all — the
balance dictionary built by `get_user_token_balance` carries no
`admin_chat_id` and no notification flags, so `_send_token_exhausted_notification`
returns before sending; likewise at 95 percent usage the warning path emits
nothing, on this and on every repeated check. -/
theorem C4_threshold_notifications_never_delivered :
    check_openai_token_limit stC4 "b4" 9 true = (false, [])
    ∧ check_openai_token_limit stC4warn "b4" 9 true = (true, [])
    ∧ (get_user_token_balance stC4 9 false).map
        (fun i => (i.admin_chat_id, i.notification_sent, i.warning_sent))
        = some (none, none, none)
    ∧ (findUser stC4 9).map UserRec.tokens_admin_chat_id = some (some 42)
    ∧ (send_token_exhausted_notification
        { limit := 1000, total_used := 1000, remaining := 0,
          admin_chat_id := some 42 } true).2 = false := by
  exact ⟨by decide, by decide, by decide, by decide, by decide⟩

/-- Claim C5: the polling loop retries transient failures sleeping
`min(retry * 5, 30)` seconds — which, on a freshly constructed worker whose
`error_count` starts at 0, equals `min(error_count * 5, 30)` at each retry —
up to the ceiling of 5 consecutive failures; reaching the ceiling stops
retrying, clears the running flag and persists status "error" with
`is_running = false`; the (spec-modelled) restart rebuilds the runtime with
`error_count = 0` and returns it to running. -/
theorem C5_retry_ceiling_and_restart :
    (startPollingLoop (List.replicate 5 PollStep.failure) 0
        { is_running := true, error_count := 0, status_persisted := none } []
      = ({ is_running := false, error_count := 5,
           status_persisted := some ("error", false) }, [5, 10, 15, 20]))
    ∧ (startPollingLoop (List.replicate 3 PollStep.failure) 0
        { is_running := true, error_count := 0, status_persisted := none } []
      = ({ is_running := true, error_count := 3, status_persisted := none },
         [5, 10, 15]))
    ∧ (∀ old : PollState, restartWorker old true
        = { is_running := true, error_count := 0, status_persisted := none }) := by
  exact ⟨by decide, by decide, fun old => rfl⟩

/-- Claim C6 counterexample: enabling the AI capability on a bot with no
agent type and no agent handle commits and reports success — no InvalidConfig
failure — persisting a record that violates the invariant; even the separate
consistency diagnostic reports this record as consistent, since it only
inspects typed records. -/
theorem C6_enable_without_agent_persists :
    (update_ai_assistant stC6 "b6" true none none).2 = true
    ∧ ((update_ai_assistant stC6 "b6" true none none).1.bots.map
        (fun b => (b.ai_assistant_enabled, b.ai_assistant_type,
                   b.openai_agent_id, b.external_api_token)))
        = [(true, none, none, none)]
    ∧ validate_agent_data_consistency
        (update_ai_assistant stC6 "b6" true none none).1 "b6"
        = ("consistent", []) := by
  exact ⟨by decide, by decide, by decide⟩

/-- Claim C6 as amended: the store's write path performs no invariant
validation — `update_ai_assistant` with an enable flag and no agent data
unconditionally commits `ai_assistant_enabled := enabled` on the addressed
row, leaving the agent type and handles unchanged (possibly empty), and always
reports success; it can therefore persist a record with the AI capability
enabled and no agent configured, and never fails with an InvalidConfig-style
error. -/
theorem C6_write_path_skips_validation (st : Store) (bid : String)
    (enabled : Bool) :
    update_ai_assistant st bid enabled none none
      = (⟨st.users, st.bots.map (fun b =>
          if b.bot_id = bid then { b with ai_assistant_enabled := enabled }
          else b)⟩, true) := rfl

/-- Claim C2 counterexample: the createWorker command (`handle_token_input`)
persists the bot row and immediately signals the Orchestrator with no
verification step of any kind — the write is unconfirmed when the Orchestrator
is signaled, refuting the claim that every mutating Control Plane command
follows write-then-verify and never signals the Orchestrator on an unconfirmed
write. -/
theorem C2_create_signals_without_verify :
    handle_token_input true true true
      = [CPEvent.storeWrite, CPEvent.orchSignal, CPEvent.reportSuccess]
    ∧ CPEvent.orchSignal ∈ handle_token_input true true true
    ∧ CPEvent.verifyCall true ∉ handle_token_input true true true
    ∧ CPEvent.verifyCall false ∉ handle_token_input true true true := by
  exact ⟨by decide, by decide, by decide, by decide⟩

/-- Claim C2 as amended: only the subscription-toggle command follows
write-then-verify — after its Configuration Store write it runs
`verify_update_success` (a single fresh read after a fixed 0.1 s delay, not a
bounded polling loop), reports success only when verification passed, surfaces
a not-confirmed error and stops when it failed, and never signals the
Orchestrator; the bot-creation command persists its write and signals the
Orchestrator without any verification (see the counterexample). -/
theorem C2_toggle_write_then_verify
    (isOwner current updOk verifyRead verifyExc : Bool) :
    CPEvent.orchSignal ∉
      cb_toggle_subscription isOwner current updOk verifyRead verifyExc
    ∧ (CPEvent.reportSuccess ∈
        cb_toggle_subscription isOwner current updOk verifyRead verifyExc →
       CPEvent.verifyCall true ∈
        cb_toggle_subscription isOwner current updOk verifyRead verifyExc)
    ∧ (isOwner = true → updOk = true →
       verify_update_success verifyRead (!current) verifyExc = false →
       CPEvent.reportSuccess ∉
         cb_toggle_subscription isOwner current updOk verifyRead verifyExc
       ∧ CPEvent.reportNotConfirmed ∈
         cb_toggle_subscription isOwner current updOk verifyRead verifyExc) := by
  cases isOwner <;> cases current <;> cases updOk <;> cases verifyRead <;>
    cases verifyExc <;> exact ⟨by decide, by decide, by decide⟩

/-- Claim C2 witness: a toggle whose single verification read observes the
stale value reports not-confirmed and never reports success. -/
theorem C2_toggle_write_then_verify_witness :
    CPEvent.reportSuccess ∉ cb_toggle_subscription true false true false false
    ∧ CPEvent.reportNotConfirmed ∈
        cb_toggle_subscription true false true false false :=
  (C2_toggle_write_then_verify true false true false false).2.2 rfl rfl (by decide)

/-- Claim C7 counterexample: with owner 9's quota exhausted, the owner
conversation path (`handle_openai_conversation`) still calls the LLM — its
trace contains the LLM call and no quota check at all, while the quota check,
had it been evaluated, would have denied; and when the OpenAI client import
fails, the same path attempts the usage increment with no LLM call at all,
refuting both halves of the claim. -/
theorem C7_owner_conversation_calls_llm_without_quota_check :
    handle_openai_conversation stC4 "b4" true true
      = [AIEvent.llmCall, AIEvent.usageIncrement, AIEvent.replyText]
    ∧ (check_openai_token_limit stC4 "b4" 9 true).1 = false
    ∧ AIEvent.quotaCheck true ∉ handle_openai_conversation stC4 "b4" true true
    ∧ AIEvent.quotaCheck false ∉ handle_openai_conversation stC4 "b4" true true
    ∧ handle_openai_conversation stC4 "b4" false true
        = [AIEvent.usageIncrement, AIEvent.replyText] := by
  exact ⟨by decide, by decide, by decide, by decide, by decide⟩

/-- Claim C7 as amended: on the user-facing dispatch path the owner's
token-quota check is evaluated before the LLM is invoked — whenever the trace
contains an LLM call its first event is a passed quota check, and a failed
check prevents the call — and on that path the usage increment is attempted
only after a successful LLM response; the owner conversation path, however,
invokes the LLM without any quota check, attempts the usage increment after a
successful response only when the OpenAI client imports, and — when the import
fails — attempts the usage increment with no LLM call at all (charging for the
fallback reply); the token charge itself is performed by the OpenAI client
layer outside these handlers. -/
theorem C7_user_path_checks_quota_before_llm (st : Store) (bid : String)
    (uid : Nat) (bp dailyHit importOk llmOk : Bool) :
    (AIEvent.llmCall ∈
        get_openai_response_for_user st bid uid bp dailyHit importOk llmOk →
      (get_openai_response_for_user st bid uid bp dailyHit importOk llmOk).head?
        = some (AIEvent.quotaCheck true))
    ∧ ((check_openai_token_limit st bid uid bp).1 = false →
      AIEvent.llmCall ∉
        get_openai_response_for_user st bid uid bp dailyHit importOk llmOk)
    ∧ (AIEvent.usageIncrement ∈
        get_openai_response_for_user st bid uid bp dailyHit importOk llmOk →
       llmOk = true)
    ∧ (AIEvent.usageIncrement ∈ handle_openai_conversation st bid true llmOk →
       llmOk = true)
    ∧ (∀ aid, syncedAssistantId st bid = some aid →
        handle_openai_conversation st bid false llmOk
          = [AIEvent.usageIncrement, AIEvent.replyText]) := by
  have hadmin : AIEvent.usageIncrement ∈
      handle_openai_conversation st bid true llmOk → llmOk = true := by
    unfold handle_openai_conversation
    cases syncedAssistantId st bid <;> cases llmOk <;> simp
  have hfallback : ∀ aid, syncedAssistantId st bid = some aid →
      handle_openai_conversation st bid false llmOk
        = [AIEvent.usageIncrement, AIEvent.replyText] := by
    intro aid h
    simp [handle_openai_conversation, h]
  refine ⟨?_, ?_, ?_, hadmin, hfallback⟩ <;>
  · unfold get_openai_response_for_user
    cases hcfg : get_ai_config st bid with
    | none => simp
    | some cfg =>
      by_cases ht : cfg.type = "openai"
      · cases ha : cfg.agent_id with
        | none => simp [ht, ha]
        | some aid =>
          cases hc : (check_openai_token_limit st bid uid bp).1 <;>
            cases dailyHit <;> cases importOk <;> cases llmOk <;>
              simp [ht, ha, hc]
      · simp [ht]

/-- Claim C7 witness: on the user-facing path with owner 9's quota exhausted
the LLM is never called. -/
theorem C7_user_path_checks_quota_before_llm_witness :
    AIEvent.llmCall ∉
      get_openai_response_for_user stC4 "b4" 9 true false true true :=
  (C7_user_path_checks_quota_before_llm stC4 "b4" 9 true false true true).2.1
    (by decide)

/-- Claim C8: when the Control Plane deletes a worker with an attached
Orchestrator, the instruction to stop and remove the running instance always
precedes the deletion of the persisted row: wherever the trace deletes the
row, a removal instruction (successful or not) already occurred earlier in the
trace. -/
theorem C8_remove_precedes_row_delete (found isOwner removeOk : Bool)
    (l1 l2 : List DelEvent)
    (h : confirm_delete_bot found isOwner true removeOk
          = l1 ++ DelEvent.deleteRow :: l2) :
    DelEvent.removeBot removeOk ∈ l1 := by
  have hmem : DelEvent.deleteRow ∈ confirm_delete_bot found isOwner true removeOk := by
    rw [h]; simp
  cases found
  · simp [confirm_delete_bot] at hmem
  · cases isOwner
    · simp [confirm_delete_bot] at hmem
    · simp only [confirm_delete_bot] at h
      norm_num at h
      cases l1 with
      | nil => simp at h
      | cons a t =>
        rw [List.cons_append] at h
        simp only [List.cons.injEq] at h
        obtain ⟨ha, -⟩ := h
        rw [← ha]
        exact List.mem_cons_self _ _

/-- Claim C8 witness: a concrete deletion trace in which the removal
instruction precedes the row deletion. -/
theorem C8_remove_precedes_row_delete_witness :
    DelEvent.removeBot true ∈ [DelEvent.removeBot true] :=
  C8_remove_precedes_row_delete true true true [DelEvent.removeBot true] []
    (by decide)

/-- Claim C9: stopping a worker is idempotent: a second stop leaves the state
of a single stop unchanged and performs no resource actions, and stopping an
already-stopped worker (no polling task, no open session, no dispatcher)
returns normally as a pure no-op. -/
theorem C9_stop_idempotent_noop (s : RuntimeState) :
    stopBot (stopBot s).1 = ((stopBot s).1, [])
    ∧ (s.is_running = false → s.polling_task = false → s.bot = false →
        s.dp = false → stopBot s = (s, [])) := by
  refine ⟨rfl, fun h1 h2 h3 h4 => ?_⟩
  cases s
  subst h1 h2 h3 h4
  rfl

/-- Claim C9 witness: stopping a fully stopped worker is a no-op. -/
theorem C9_stop_idempotent_noop_witness :
    stopBot { is_running := false, polling_task := false, bot := false,
              dp := false }
      = ({ is_running := false, polling_task := false, bot := false,
           dp := false }, []) :=
  (C9_stop_idempotent_noop _).2 rfl rfl rfl rfl

end TgBotSaas
